import Mathlib

/-!
Shallow embedding of the Criteo preprocessing CLI
(`src/preprocessing/task.py` of the nvidia-merlin-on-vertex-ai
repository) and proofs about its behaviour.

Modelling conventions:
* Python floats are modelled as rationals (`ℚ`); Python `int(x)` is
  truncation toward zero (`pyInt`), Python `//` is floor division
  (`Int.fdiv`).
* The external NVTabular / Dask / fsspec objects are modelled by the
  data the repository's code passes to them and by the documented
  library semantics the code relies on:
  - an `nvt.Dataset` is the file list, engine and the list of
    workflows whose `transform` output it is (`Workflow.transform`
    returns a *new* dataset and leaves its argument unchanged;
    `Workflow.fit` computes statistics, modelled by the `fitted` flag);
  - the GCS filesystem handle is a triple of functions: whether an
    operation on a path raises, whether a path is a file, and what a
    glob pattern expands to;
  - side-effecting library calls (`to_parquet`, `workflow.save`,
    cluster creation, …) are recorded as `Action`s in a trace, and an
    uncaught Python exception is the `Option String` error component
    of a task's result.
* Each Lean definition carries the name of the Python function it
  embeds and follows its control flow statement by statement,
  including the misplacements present in the source (the `return`
  inside the `for` loop of `create_csv_dataset`, the discarded result
  of `workflow.transform` in `transform_dataset`).
-/

namespace CriteoPreproc

/-- Column dtypes used by `get_criteo_col_dtypes`: `np.int32` or the
hexadecimal-string marker `"hex"`. -/
inductive Dtype where
  | int32
  | hex
deriving DecidableEq, Repr

/-- Embeds `get_criteo_col_dtypes()`: a dict (association list in
insertion order, all keys distinct) built as
`{"label": np.int32}`, then `I1..I13 ↦ np.int32` (`range(1, 14)`),
then `C1..C26 ↦ "hex"` (`range(1, 27)`). -/
def get_criteo_col_dtypes : List (String × Dtype) :=
  [("label", Dtype.int32)]
    ++ (List.range' 1 13).map (fun i => ("I" ++ toString i, Dtype.int32))
    ++ (List.range' 1 26).map (fun i => ("C" ++ toString i, Dtype.hex))

/-- The members of `nvtabular.io.shuffle.Shuffle` (an `enum.Enum` with
members `PER_PARTITION`, `PER_WORKER`, `FULL`). -/
inductive Shuffle where
  | PER_PARTITION
  | PER_WORKER
  | FULL
deriving DecidableEq, Repr

/-- Embeds `getattr(Shuffle, s)` for a string `s`: `some m` when `s`
names a member of the enum, `none` when the lookup raises
`AttributeError`. -/
def getattr_Shuffle (s : String) : Option Shuffle :=
  if s = "PER_PARTITION" then some Shuffle.PER_PARTITION
  else if s = "PER_WORKER" then some Shuffle.PER_WORKER
  else if s = "FULL" then some Shuffle.FULL
  else none

/-- Embeds the shuffle-resolution snippet duplicated verbatim in
`convert_csv_to_parquet` and `save_dataset`:

    if shuffle == 'None': shuffle = None
    else:
      try: shuffle = getattr(Shuffle, shuffle)
      except: print(...); shuffle = None

The Python argument may be `None` (the default) or a string, hence
`Option String`; `getattr(Shuffle, None)` raises `TypeError`, which the
bare `except` also catches. -/
def resolve_shuffle : Option String → Option Shuffle
  | none => none
  | some s =>
      if s = "None" then none
      else
        match getattr_Shuffle s with
        | some m => some m
        | none => none

/-- An NVTabular column-wise operator, as instantiated by
`create_criteo_nvt_workflow`. -/
inductive Op where
  | Categorify (max_size : Nat)
  | FillMissing
  | Clip (min_value : Int)
  | Normalize
deriving DecidableEq, Repr

/-- One group of the workflow graph: a list of column names piped
(`>>`) through a chain of operators, in application order. -/
structure ColumnGroup where
  columns : List String
  ops : List Op
deriving DecidableEq, Repr

/-- An `nvt.Workflow`: the ordered column groups it was built from and
whether `fit` has computed its statistics. -/
structure Workflow where
  groups : List ColumnGroup
  fitted : Bool
deriving DecidableEq, Repr

/-- An `nvt.Dataset`: the resolved file list, the engine string, and
the workflows whose `transform` produced it (empty for a dataset read
directly from storage). -/
structure Dataset where
  files : List String
  engine : String
  applied : List Workflow
deriving DecidableEq, Repr

/-- Library semantics of `workflow.transform(dataset)`: it returns a
*new* lazy dataset with the workflow's transformation applied and
leaves the argument dataset unchanged. -/
def Workflow.transform (w : Workflow) (d : Dataset) : Dataset :=
  { d with applied := d.applied ++ [w] }

/-- Library semantics of `workflow.fit(dataset)`: computes the
workflow's statistics over the dataset and returns the fitted
workflow. -/
def Workflow.fit (w : Workflow) (_d : Dataset) : Workflow :=
  { w with fitted := true }

/-- Embeds `create_criteo_nvt_workflow(client)`:
`cont_names = ['I1'..'I13']`, `cat_names = ['C1'..'C26']`,
`cat_features = cat_names >> Categorify(max_size=10000000)`,
`cont_features = cont_names >> FillMissing() >> Clip(min_value=0)
>> Normalize()`, `features = cat_features + cont_features + ['label']`,
returned unfitted (the client handle is not part of the graph). -/
def create_criteo_nvt_workflow : Workflow :=
  let cont_names := (List.range' 1 13).map (fun x => "I" ++ toString x)
  let cat_names := (List.range' 1 26).map (fun x => "C" ++ toString x)
  let num_buckets := 10000000
  { groups :=
      [{ columns := cat_names, ops := [Op.Categorify num_buckets] },
       { columns := cont_names,
         ops := [Op.FillMissing, Op.Clip 0, Op.Normalize] },
       { columns := ["label"], ops := [] }],
    fitted := false }

/-- Python `int(x)` on a float/rational: truncation toward zero. -/
def pyInt (q : ℚ) : Int :=
  if q < 0 then -Int.floor (-q) else Int.floor q

/-- The parameters `create_cluster` hands to
`LocalCUDACluster(n_workers=…, device_memory_limit=…, rmm_pool_size=…,
memory_limit=…)`. -/
structure ClusterSpec where
  n_workers : Option Nat
  device_memory_limit : Int
  rmm_pool_size : Int
  memory_limit : Int
deriving DecidableEq, Repr

/-- Embeds `create_cluster`: `device_size = device_mem_size()` (the
queried device memory, taken here as the argument `device_size`),
`device_limit = int(device_limit_frac * device_size)`,
`device_pool_size = int(device_pool_frac * device_size)`,
`rmm_pool_size = (device_pool_size // 256) * 256` (Python `//` is
floor division, `Int.fdiv`), all forwarded to the cluster. -/
def create_cluster (n_workers : Option Nat)
    (device_limit_frac device_pool_frac : ℚ) (memory_limit : Int)
    (device_size : Nat) : ClusterSpec :=
  let device_limit := pyInt (device_limit_frac * device_size)
  let device_pool_size := pyInt (device_pool_frac * device_size)
  let rmm_pool_size := (Int.fdiv device_pool_size 256) * 256
  { n_workers := n_workers,
    device_memory_limit := device_limit,
    rmm_pool_size := rmm_pool_size,
    memory_limit := memory_limit }

/-- The call `dataset.to_parquet(output_path, shuffle=…,
output_files=…)` issued by `convert_csv_to_parquet`. -/
structure ParquetWrite where
  output_path : Option String
  dataset : Dataset
  shuffle : Option Shuffle
  output_files : Option Nat
deriving DecidableEq, Repr

/-- The call `dataset.to_parquet(output_path=…, shuffle=…)` issued by
`save_dataset`. -/
structure SaveDatasetCall where
  output_path : Option String
  dataset : Dataset
  shuffle : Option Shuffle
deriving DecidableEq, Repr

/-- Embeds `convert_csv_to_parquet(output_path, dataset, output_files,
shuffle=None)`: resolves the shuffle name and writes the dataset. -/
def convert_csv_to_parquet (output_path : Option String) (dataset : Dataset)
    (output_files : Option Nat) (shuffle : Option String) : ParquetWrite :=
  { output_path := output_path,
    dataset := dataset,
    shuffle := resolve_shuffle shuffle,
    output_files := output_files }

/-- Embeds `save_dataset(dataset, output_path, shuffle=None)`: resolves
the shuffle name and writes the dataset. -/
def save_dataset (dataset : Dataset) (output_path : Option String)
    (shuffle : Option String) : SaveDatasetCall :=
  { output_path := output_path,
    dataset := dataset,
    shuffle := resolve_shuffle shuffle }

/-- The exception classes caught in `create_csv_dataset`. -/
inductive PathError where
  | fileNotFound
  | osError
deriving DecidableEq, Repr

/-- The `fsspec.filesystem('gs')` handle, as the code uses it:
`raises p` is the exception (if any) raised while resolving the
user-supplied path `p`; `isfile` and `glob` are the library queries on
paths that do not raise. -/
structure GcsFs where
  raises : String → Option PathError
  isfile : String → Bool
  glob : String → List String

/-- The body of one iteration of the `for path in data_paths:` loop of
`create_csv_dataset`: inside `try`, a path that is a single file is
appended as-is; otherwise it is joined with the recursion symbol
(`'**'` if recursive else `'*'`), globbed, and every glob result that
is a file is appended with a `'gs://'` prefix; `FileNotFoundError` and
`OSError` are caught, a diagnostic is printed, and nothing is
appended. -/
def process_csv_path (fs : GcsFs) (recursive : Bool) (path : String) :
    List String :=
  match fs.raises path with
  | some _ => []
  | none =>
      if fs.isfile path then [path]
      else
        let rec_symbol := if recursive then "**" else "*"
        ((fs.glob (path ++ "/" ++ rec_symbol)).filter fs.isfile).map
          (fun i => "gs://" ++ i)

/-- Embeds `create_csv_dataset(data_paths, sep, recursive, col_dtypes,
frac_size, client)`. In the source the `return nvt.Dataset(...)`
statement is indented *inside* the `for path in data_paths:` loop
(after the `try`/`except` blocks), so the function returns at the end
of the first iteration, having processed only the first path; with an
empty `data_paths` the loop body never runs and the function falls off
the end, returning Python `None`. `sep`, `col_dtypes` and `frac_size`
only configure CSV parsing inside the library and do not affect the
file list. -/
def create_csv_dataset (data_paths : List String) (_sep : Option String)
    (recursive : Bool) (_col_dtypes : List (String × Dtype))
    (_frac_size : ℚ) (fs : GcsFs) : Option Dataset :=
  match data_paths with
  | [] => none
  | path :: _rest =>
      some { files := process_csv_path fs recursive path,
             engine := "csv", applied := [] }

/-- Embeds `create_parquet_dataset(client, data_path, frac_size)`:
globs `os.path.join(data_path, '*.parquet')`, raises
`FileNotFoundError('Parquet file(s) not found')` when the listing is
empty, and otherwise prefixes each listed file with
`os.path.join('gs://', i) = 'gs://' + i`. -/
def create_parquet_dataset (fs : GcsFs) (data_path : String)
    (_frac_size : ℚ) : Except String Dataset :=
  let file_list := fs.glob (data_path ++ "/*.parquet")
  if file_list.isEmpty then
    Except.error "Parquet file(s) not found"
  else
    Except.ok { files := file_list.map (fun i => "gs://" ++ i),
                engine := "parquet", applied := [] }

/-- Embeds `analyze_dataset(workflow, dataset)`: `workflow.fit(dataset);
return workflow`. -/
def analyze_dataset (workflow : Workflow) (dataset : Dataset) : Workflow :=
  Workflow.fit workflow dataset

/-- Embeds `transform_dataset(dataset, workflow)`. The source is

    workflow.transform(dataset)
    return dataset

the value returned by `workflow.transform` — the transformed dataset —
is discarded, and the original `dataset` argument is returned. -/
def transform_dataset (dataset : Dataset) (workflow : Workflow) : Dataset :=
  let _discarded := Workflow.transform workflow dataset
  dataset

/-- Embeds `load_workflow(workflow_path, client)`:
`nvt.Workflow.load(workflow_path, client)`, modelled by looking the
path up in the store of persisted workflows. -/
def load_workflow (store : String → Workflow) (workflow_path : String) :
    Workflow :=
  store workflow_path

/-- The call `workflow.save(output_path)` issued by `save_workflow`. -/
structure WorkflowSave where
  output_path : Option String
  workflow : Workflow
deriving DecidableEq, Repr

/-- Embeds `save_workflow(workflow, output_path)`. -/
def save_workflow (workflow : Workflow) (output_path : Option String) :
    WorkflowSave :=
  { output_path := output_path, workflow := workflow }

/-- The flags actually present on the command line: `none` means the
flag was omitted (every flag is declared `required=False`). -/
structure ProvidedArgs where
  task : Option String
  csv_data_path : Option (List String)
  parquet_data_path : Option String
  output_path : Option String
  output_files : Option Nat
  workflow_path : Option String
  n_workers : Option Nat
  sep : Option String
  frac_size : Option ℚ
  memory_limit : Option Int
  device_limit_frac : Option ℚ
  device_pool_frac : Option ℚ

/-- The namespace returned by `parser.parse_args()`: flags with no
`default=` are `None` when omitted; the four flags with defaults
always carry a value. -/
structure ParsedArgs where
  task : Option String
  csv_data_path : Option (List String)
  parquet_data_path : Option String
  output_path : Option String
  output_files : Option Nat
  workflow_path : Option String
  n_workers : Option Nat
  sep : Option String
  frac_size : ℚ
  memory_limit : Int
  device_limit_frac : ℚ
  device_pool_frac : ℚ

/-- Embeds `parse_args()`: argparse fills each omitted flag with its
declared default — `frac_size` 0.10, `memory_limit` 100_000_000_000,
`device_limit_frac` 0.60, `device_pool_frac` 0.90 — and `None` for the
flags declared without a default; a supplied value is kept as is. -/
def parse_args (p : ProvidedArgs) : ParsedArgs :=
  { task := p.task,
    csv_data_path := p.csv_data_path,
    parquet_data_path := p.parquet_data_path,
    output_path := p.output_path,
    output_files := p.output_files,
    workflow_path := p.workflow_path,
    n_workers := p.n_workers,
    sep := p.sep,
    frac_size := p.frac_size.getD (1/10),
    memory_limit := p.memory_limit.getD 100000000000,
    device_limit_frac := p.device_limit_frac.getD (3/5),
    device_pool_frac := p.device_pool_frac.getD (9/10) }

/-- The external world a task invocation runs against: the GCS
filesystem, the device memory reported by `device_mem_size()`, and the
persisted workflows `nvt.Workflow.load` can read. -/
structure Env where
  fs : GcsFs
  deviceSize : Nat
  workflowStore : String → Workflow

/-- The observable actions of one program run, in order. -/
inductive Action where
  | logTiming
  | createCluster (c : ClusterSpec)
  | readCsvDataset (d : Dataset)
  | readParquetDataset (d : Dataset)
  | createWorkflow (w : Workflow)
  | loadWorkflowAct (path : String) (w : Workflow)
  | writeParquet (w : ParquetWrite)
  | saveWorkflowAct (s : WorkflowSave)
  | saveDatasetAct (s : SaveDatasetCall)
  | logElapsed
deriving DecidableEq, Repr

/-- Embeds `main_convert(args)`: create the cluster, build the CSV
dataset (over `args.csv_data_path` with `recursive=False` and the
Criteo dtypes), and convert it to Parquet (the call passes no
`shuffle`, so the default `None` applies). A `None` where an object is
required (`csv_data_path` omitted, or the `None` dataset returned by
`create_csv_dataset` on an empty path list) raises an uncaught
`TypeError`/`AttributeError`. -/
def main_convert (env : Env) (args : ParsedArgs) :
    List Action × Option String :=
  let client := create_cluster args.n_workers args.device_limit_frac
    args.device_pool_frac args.memory_limit env.deviceSize
  match args.csv_data_path with
  | none => ([Action.createCluster client], some "TypeError")
  | some paths =>
      match create_csv_dataset paths args.sep false get_criteo_col_dtypes
          args.frac_size env.fs with
      | none => ([Action.createCluster client], some "AttributeError")
      | some dataset =>
          let w := convert_csv_to_parquet args.output_path dataset
            args.output_files none
          ([Action.createCluster client, Action.readCsvDataset dataset,
            Action.writeParquet w], none)

/-- Embeds `main_analyse(args)`: create the cluster, build the Parquet
dataset, create the Criteo workflow fresh, fit it over the dataset,
and save it to `args.output_path`. An omitted `parquet_data_path`
raises an uncaught `TypeError` inside `os.path.join`; the
`FileNotFoundError` of `create_parquet_dataset` propagates uncaught. -/
def main_analyse (env : Env) (args : ParsedArgs) :
    List Action × Option String :=
  let client := create_cluster args.n_workers args.device_limit_frac
    args.device_pool_frac args.memory_limit env.deviceSize
  match args.parquet_data_path with
  | none => ([Action.createCluster client], some "TypeError")
  | some dp =>
      match create_parquet_dataset env.fs dp args.frac_size with
      | Except.error e => ([Action.createCluster client], some e)
      | Except.ok dataset =>
          let criteo_workflow := create_criteo_nvt_workflow
          let fitted := analyze_dataset criteo_workflow dataset
          ([Action.createCluster client,
            Action.readParquetDataset dataset,
            Action.createWorkflow criteo_workflow,
            Action.saveWorkflowAct (save_workflow fitted args.output_path)],
           none)

/-- Embeds `main_transform(args)`: create the cluster, build the
Parquet dataset, load the workflow from `args.workflow_path`, call
`transform_dataset`, and save its result (named `transformed_dataset`
in the source) to `args.output_path` via `save_dataset` with the
default `shuffle=None`. -/
def main_transform (env : Env) (args : ParsedArgs) :
    List Action × Option String :=
  let client := create_cluster args.n_workers args.device_limit_frac
    args.device_pool_frac args.memory_limit env.deviceSize
  match args.parquet_data_path with
  | none => ([Action.createCluster client], some "TypeError")
  | some dp =>
      match create_parquet_dataset env.fs dp args.frac_size with
      | Except.error e => ([Action.createCluster client], some e)
      | Except.ok dataset =>
          match args.workflow_path with
          | none =>
              ([Action.createCluster client,
                Action.readParquetDataset dataset], some "TypeError")
          | some wp =>
              let criteo_workflow := load_workflow env.workflowStore wp
              let transformed_dataset :=
                transform_dataset dataset criteo_workflow
              let sv := save_dataset transformed_dataset args.output_path none
              ([Action.createCluster client,
                Action.readParquetDataset dataset,
                Action.loadWorkflowAct wp criteo_workflow,
                Action.saveDatasetAct sv], none)

/-- Embeds the `if __name__ == '__main__':` block: log the timing
start, dispatch on `parsed_args.task` — `'convert'`, `'analyse'`,
`'transform'`, or no dispatch at all for any other value (including
`None`, the flag being optional) — then log the elapsed time. An
uncaught exception inside a task aborts the run before the final log;
it is the `Option String` component of the result. -/
def runMain (env : Env) (args : ParsedArgs) : List Action × Option String :=
  let dispatched :=
    if args.task = some "convert" then some (main_convert env args)
    else if args.task = some "analyse" then some (main_analyse env args)
    else if args.task = some "transform" then some (main_transform env args)
    else none
  match dispatched with
  | none => ([Action.logTiming, Action.logElapsed], none)
  | some (tr, none) => ([Action.logTiming] ++ tr ++ [Action.logElapsed], none)
  | some (tr, some e) => ([Action.logTiming] ++ tr, some e)

/-! Concrete environments and argument vectors used to evaluate the
embedded program on specific inputs. -/

/-- A GCS filesystem on which nothing exists: no path raises, no path
is a file, every glob is empty. -/
def fsEmpty : GcsFs :=
  { raises := fun _ => none, isfile := fun _ => false, glob := fun _ => [] }

/-- A GCS filesystem whose every glob lists the single Parquet file
`criteo/f1.parquet`. -/
def fsOneParquet : GcsFs :=
  { raises := fun _ => none, isfile := fun _ => false,
    glob := fun _ => ["criteo/f1.parquet"] }

/-- A GCS filesystem where resolving `gs://bucket/bad.csv` raises
`FileNotFoundError` while `gs://bucket/good.csv` is an existing file. -/
def fsBadGood : GcsFs :=
  { raises := fun p =>
      if p == "gs://bucket/bad.csv" then some PathError.fileNotFound
      else none,
    isfile := fun p => p == "gs://bucket/good.csv",
    glob := fun _ => [] }

/-- A GCS filesystem where `gs://bucket/a.csv` and `gs://bucket/b.csv`
are both existing files and nothing raises. -/
def fsTwoFiles : GcsFs :=
  { raises := fun _ => none,
    isfile := fun p => p == "gs://bucket/a.csv" || p == "gs://bucket/b.csv",
    glob := fun _ => [] }

/-- The Criteo workflow after `fit`, as persisted by the analyse task
and reloaded by the transform task. -/
def wfStored : Workflow :=
  { create_criteo_nvt_workflow with fitted := true }

/-- A workflow store holding `wfStored` under every path. -/
def wfStoreTriv : String → Workflow := fun _ => wfStored

/-- An environment with no Parquet files. -/
def envNoParquet : Env :=
  { fs := fsEmpty, deviceSize := 1000, workflowStore := wfStoreTriv }

/-- An environment with one Parquet file and a persisted workflow. -/
def envOneParquet : Env :=
  { fs := fsOneParquet, deviceSize := 1000, workflowStore := wfStoreTriv }

/-- The dataset `create_parquet_dataset` builds in `envOneParquet`:
the single listed file with the `gs://` prefix, engine `parquet`, no
transformation applied. -/
def dsRaw : Dataset :=
  { files := ["gs://criteo/f1.parquet"], engine := "parquet", applied := [] }

/-- A parsed argument vector for the transform task: all defaulted
flags at their defaults, data under `gs://criteo`, workflow at
`gs://wf`, output at `gs://out`. -/
def argsTransform : ParsedArgs :=
  { task := some "transform", csv_data_path := none,
    parquet_data_path := some "gs://criteo",
    output_path := some "gs://out", output_files := none,
    workflow_path := some "gs://wf", n_workers := some 2, sep := none,
    frac_size := 1/10, memory_limit := 100000000000,
    device_limit_frac := 3/5, device_pool_frac := 9/10 }

/-- A parsed argument vector with `--task` omitted (`None`). -/
def argsNoTask : ParsedArgs :=
  { argsTransform with task := none }

/-- A `ProvidedArgs` with every flag omitted. -/
def pNothing : ProvidedArgs :=
  { task := none, csv_data_path := none, parquet_data_path := none,
    output_path := none, output_files := none, workflow_path := none,
    n_workers := none, sep := none, frac_size := none,
    memory_limit := none, device_limit_frac := none,
    device_pool_frac := none }

/-- A `ProvidedArgs` supplying the four defaulted flags explicitly. -/
def pSupplied : ProvidedArgs :=
  { pNothing with
    frac_size := some (1/4)
    memory_limit := some 7
    device_limit_frac := some (1/2)
    device_pool_frac := some (2/3) }

end CriteoPreproc

namespace CriteoPreproc

/-- C4: `get_criteo_col_dtypes` always returns a mapping with exactly
40 entries: `"label" ↦ int32`, the 13 keys `I1..I13 ↦ int32`, and the
26 keys `C1..C26 ↦ "hex"`; the keys are pairwise distinct, so the dict
really has 40 entries. -/
theorem get_criteo_col_dtypes_forty_entries :
    get_criteo_col_dtypes.length = 40 ∧
    (get_criteo_col_dtypes.map Prod.fst).Nodup ∧
    get_criteo_col_dtypes =
      [("label", Dtype.int32),
       ("I1", Dtype.int32), ("I2", Dtype.int32), ("I3", Dtype.int32),
       ("I4", Dtype.int32), ("I5", Dtype.int32), ("I6", Dtype.int32),
       ("I7", Dtype.int32), ("I8", Dtype.int32), ("I9", Dtype.int32),
       ("I10", Dtype.int32), ("I11", Dtype.int32), ("I12", Dtype.int32),
       ("I13", Dtype.int32),
       ("C1", Dtype.hex), ("C2", Dtype.hex), ("C3", Dtype.hex),
       ("C4", Dtype.hex), ("C5", Dtype.hex), ("C6", Dtype.hex),
       ("C7", Dtype.hex), ("C8", Dtype.hex), ("C9", Dtype.hex),
       ("C10", Dtype.hex), ("C11", Dtype.hex), ("C12", Dtype.hex),
       ("C13", Dtype.hex), ("C14", Dtype.hex), ("C15", Dtype.hex),
       ("C16", Dtype.hex), ("C17", Dtype.hex), ("C18", Dtype.hex),
       ("C19", Dtype.hex), ("C20", Dtype.hex), ("C21", Dtype.hex),
       ("C22", Dtype.hex), ("C23", Dtype.hex), ("C24", Dtype.hex),
       ("C25", Dtype.hex), ("C26", Dtype.hex)] := by
  refine ⟨rfl, ?_, rfl⟩
  decide

/-- C3: for every string passed as the `shuffle` argument of
`convert_csv_to_parquet` or `save_dataset`, the write's shuffle
setting is exactly `getattr_Shuffle s`: the named member when the
string names a member of the `Shuffle` enum, and no shuffle otherwise
— in particular for the literal string `"None"` and for any
unrecognized name. -/
theorem shuffle_name_resolution (out : Option String) (d : Dataset)
    (nf : Option Nat) (s : String) :
    (convert_csv_to_parquet out d nf (some s)).shuffle = getattr_Shuffle s ∧
    (save_dataset d out (some s)).shuffle = getattr_Shuffle s ∧
    (convert_csv_to_parquet out d nf (some "None")).shuffle = none ∧
    (save_dataset d out (some "None")).shuffle = none := by
  have key : resolve_shuffle (some s) = getattr_Shuffle s := by
    by_cases h : s = "None"
    · subst h; rfl
    · simp only [resolve_shuffle, if_neg h]
      cases getattr_Shuffle s <;> rfl
  exact ⟨key, key, rfl, rfl⟩

/-- C7: when the corresponding CLI flag is omitted, the parsed
arguments have `frac_size = 0.10` (the rational 1/10),
`memory_limit = 100000000000`, `device_limit_frac = 0.60` (3/5) and
`device_pool_frac = 0.90` (9/10); a supplied value replaces the
default unchanged. -/
theorem parse_args_defaults (p : ProvidedArgs) :
    (p.frac_size = none → (parse_args p).frac_size = 1/10) ∧
    (∀ v, p.frac_size = some v → (parse_args p).frac_size = v) ∧
    (p.memory_limit = none → (parse_args p).memory_limit = 100000000000) ∧
    (∀ v, p.memory_limit = some v → (parse_args p).memory_limit = v) ∧
    (p.device_limit_frac = none → (parse_args p).device_limit_frac = 3/5) ∧
    (∀ v, p.device_limit_frac = some v →
        (parse_args p).device_limit_frac = v) ∧
    (p.device_pool_frac = none → (parse_args p).device_pool_frac = 9/10) ∧
    (∀ v, p.device_pool_frac = some v →
        (parse_args p).device_pool_frac = v) := by
  refine ⟨fun h => ?_, fun v h => ?_, fun h => ?_, fun v h => ?_,
    fun h => ?_, fun v h => ?_, fun h => ?_, fun v h => ?_⟩ <;>
    simp [parse_args, h]

/-- Witness for C7: with every flag omitted the four defaults appear;
a supplied `frac_size` of 1/4 is kept unchanged. -/
theorem parse_args_defaults_witness :
    (parse_args pNothing).frac_size = 1/10 ∧
    (parse_args pNothing).memory_limit = 100000000000 ∧
    (parse_args pNothing).device_limit_frac = 3/5 ∧
    (parse_args pNothing).device_pool_frac = 9/10 ∧
    (parse_args pSupplied).frac_size = 1/4 := by
  have h := parse_args_defaults pNothing
  have h2 := parse_args_defaults pSupplied
  exact ⟨h.1 rfl, h.2.2.1 rfl, h.2.2.2.2.1 rfl, h.2.2.2.2.2.2.1 rfl,
    h2.2.1 (1/4) rfl⟩

/-- C10: for every value of `--task` other than the exact strings
`convert`, `analyse` and `transform` — including the flag being
omitted — the program dispatches to no task function: the run's trace
is just the two timing log lines (no cluster creation, no read, no
write) and it terminates normally (no error). -/
theorem unknown_task_no_dispatch (env : Env) (args : ParsedArgs)
    (h1 : args.task ≠ some "convert") (h2 : args.task ≠ some "analyse")
    (h3 : args.task ≠ some "transform") :
    runMain env args = ([Action.logTiming, Action.logElapsed], none) := by
  unfold runMain
  rw [if_neg h1, if_neg h2, if_neg h3]

/-- Witness for C10: omitting `--task` altogether yields only the two
timing log lines and a normal exit. -/
theorem unknown_task_no_dispatch_witness :
    runMain envNoParquet argsNoTask =
      ([Action.logTiming, Action.logElapsed], none) :=
  unknown_task_no_dispatch envNoParquet argsNoTask
    (by simp [argsNoTask]) (by simp [argsNoTask]) (by simp [argsNoTask])

/-- C2 (failing execution): on the path list
`[gs://bucket/bad.csv, gs://bucket/good.csv]` over a filesystem where
the first path raises `FileNotFoundError` and the second is an
existing file, `create_csv_dataset` returns a dataset with an *empty*
file list — the misindented `return` inside the `for` loop ends the
function at the first iteration, so resolution never continues to the
remaining path, even though resolving `gs://bucket/good.csv` alone
succeeds and yields the file (second conjunct). -/
theorem csv_resolution_stops_after_error :
    create_csv_dataset ["gs://bucket/bad.csv", "gs://bucket/good.csv"]
        (some "\t") false get_criteo_col_dtypes (1/10) fsBadGood =
      some { files := [], engine := "csv", applied := [] } ∧
    process_csv_path fsBadGood false "gs://bucket/good.csv" =
      ["gs://bucket/good.csv"] := by
  constructor <;> rfl

/-- C6 (failing execution): on the path list
`[gs://bucket/a.csv, gs://bucket/b.csv]` where both paths are existing
single files and nothing raises, `create_csv_dataset` returns a
dataset containing only the first file: the `return` inside the `for`
loop means the second path — a valid file (second and third
conjuncts) — is never added. -/
theorem csv_only_first_path_resolved :
    create_csv_dataset ["gs://bucket/a.csv", "gs://bucket/b.csv"]
        (some ",") false get_criteo_col_dtypes (1/10) fsTwoFiles =
      some { files := ["gs://bucket/a.csv"], engine := "csv",
             applied := [] } ∧
    fsTwoFiles.isfile "gs://bucket/b.csv" = true ∧
    fsTwoFiles.raises "gs://bucket/b.csv" = none := by
  refine ⟨?_, rfl, rfl⟩
  rfl

/-- C9: for every device memory size `s` and every invocation of
`create_cluster` (with nonnegative fractions, as supplied in
practice): the device memory limit is `⌊device_limit_frac * s⌋`, the
RMM pool size is the largest multiple of 256 that is at most
`⌊device_pool_frac * s⌋`, and `n_workers` and `memory_limit` are
forwarded unchanged. -/
theorem create_cluster_sizing (nw : Option Nat) (dlf dpf : ℚ)
    (ml : Int) (s : Nat) (h1 : 0 ≤ dlf) (h2 : 0 ≤ dpf) :
    (create_cluster nw dlf dpf ml s).device_memory_limit =
      Int.floor (dlf * (s : ℚ)) ∧
    (create_cluster nw dlf dpf ml s).rmm_pool_size % 256 = 0 ∧
    (create_cluster nw dlf dpf ml s).rmm_pool_size ≤
      Int.floor (dpf * (s : ℚ)) ∧
    (∀ m : Int, m % 256 = 0 → m ≤ Int.floor (dpf * (s : ℚ)) →
        m ≤ (create_cluster nw dlf dpf ml s).rmm_pool_size) ∧
    (create_cluster nw dlf dpf ml s).n_workers = nw ∧
    (create_cluster nw dlf dpf ml s).memory_limit = ml := by
  have hs : (0 : ℚ) ≤ (s : ℚ) := Nat.cast_nonneg s
  have pyInt_floor : ∀ q : ℚ, 0 ≤ q → pyInt q = Int.floor q := by
    intro q hq
    unfold pyInt
    rw [if_neg (not_lt.mpr hq)]
  have hl : pyInt (dlf * (s : ℚ)) = Int.floor (dlf * (s : ℚ)) :=
    pyInt_floor _ (mul_nonneg h1 hs)
  have hpq : (0 : ℚ) ≤ dpf * (s : ℚ) := mul_nonneg h2 hs
  have hp : pyInt (dpf * (s : ℚ)) = Int.floor (dpf * (s : ℚ)) :=
    pyInt_floor _ hpq
  have hpnn : 0 ≤ Int.floor (dpf * (s : ℚ)) := Int.le_floor.mpr (by
    simpa using hpq)
  have hfdiv : ∀ a : Int, 0 ≤ a → Int.fdiv a 256 = a / 256 := by
    intro a ha
    obtain ⟨n, rfl⟩ := Int.eq_ofNat_of_zero_le ha
    have e1 := Int.ofNat_fdiv n 256
    have e2 := Int.ofNat_ediv n 256
    exact e1.symm.trans e2
  refine ⟨hl, ?_, ?_, ?_, rfl, rfl⟩
  · show Int.fdiv (pyInt (dpf * (s : ℚ))) 256 * 256 % 256 = 0
    rw [hp, hfdiv _ hpnn]
    omega
  · show Int.fdiv (pyInt (dpf * (s : ℚ))) 256 * 256 ≤
      Int.floor (dpf * (s : ℚ))
    rw [hp, hfdiv _ hpnn]
    omega
  · intro m hm hle
    show m ≤ Int.fdiv (pyInt (dpf * (s : ℚ))) 256 * 256
    rw [hp, hfdiv _ hpnn]
    omega

/-- Witness for C9: with `device_limit_frac = 3/5`,
`device_pool_frac = 9/10` and a device of 1000 bytes, the device
limit is `⌊3/5 * 1000⌋ = 600` and the RMM pool size is a multiple of
256 bounded by `⌊9/10 * 1000⌋ = 900`. -/
theorem create_cluster_sizing_witness :
    (create_cluster (some 4) (3/5) (9/10) 100 1000).device_memory_limit =
      Int.floor ((3/5 : ℚ) * ((1000 : ℕ) : ℚ)) ∧
    (create_cluster (some 4) (3/5) (9/10) 100 1000).rmm_pool_size % 256 =
      0 ∧
    (create_cluster (some 4) (3/5) (9/10) 100 1000).rmm_pool_size ≤
      Int.floor ((9/10 : ℚ) * ((1000 : ℕ) : ℚ)) := by
  have h := create_cluster_sizing (some 4) (3/5) (9/10) 100 1000
    (by norm_num) (by norm_num)
  exact ⟨h.1, h.2.1, h.2.2.1⟩

/-- C5: for every data path given to `create_parquet_dataset`, if
globbing `<data_path>/*.parquet` yields an empty file list the
function raises the `FileNotFoundError('Parquet file(s) not found')`,
which no caller catches — under both the analyse and the transform
task the error reaches the process boundary; if the listing is
non-empty no such error is raised. -/
theorem parquet_missing_fatal (env : Env) (args : ParsedArgs) (dp : String)
    (hdp : args.parquet_data_path = some dp) :
    (env.fs.glob (dp ++ "/*.parquet") = [] →
      create_parquet_dataset env.fs dp args.frac_size =
        Except.error "Parquet file(s) not found" ∧
      (args.task = some "analyse" →
        (runMain env args).2 = some "Parquet file(s) not found") ∧
      (args.task = some "transform" →
        (runMain env args).2 = some "Parquet file(s) not found")) ∧
    (env.fs.glob (dp ++ "/*.parquet") ≠ [] →
      ∃ d, create_parquet_dataset env.fs dp args.frac_size =
        Except.ok d) := by
  constructor
  · intro hglob
    have herr : create_parquet_dataset env.fs dp args.frac_size =
        Except.error "Parquet file(s) not found" := by
      unfold create_parquet_dataset
      rw [hglob]
      rfl
    refine ⟨herr, fun ht => ?_, fun ht => ?_⟩
    · have hne : args.task ≠ some "convert" := by rw [ht]; decide
      unfold runMain
      rw [if_neg hne, ht, if_pos rfl]
      simp only [main_analyse, hdp, herr]
    · have hne1 : args.task ≠ some "convert" := by rw [ht]; decide
      have hne2 : args.task ≠ some "analyse" := by rw [ht]; decide
      unfold runMain
      rw [if_neg hne1, if_neg hne2, ht, if_pos rfl]
      simp only [main_transform, hdp, herr]
  · intro hglob
    cases hl : env.fs.glob (dp ++ "/*.parquet") with
    | nil => exact absurd hl hglob
    | cons a as =>
        refine ⟨{ files := (a :: as).map (fun i => "gs://" ++ i),
                  engine := "parquet", applied := [] }, ?_⟩
        unfold create_parquet_dataset
        rw [hl]
        rfl

/-- Witness for C5: with an empty bucket and the transform task, the
"not found" error reaches the top level. -/
theorem parquet_missing_fatal_witness :
    (runMain envNoParquet argsTransform).2 =
      some "Parquet file(s) not found" := by
  have h := parquet_missing_fatal envNoParquet argsTransform
    "gs://criteo" rfl
  exact (h.1 rfl).2.2 rfl

/-- C8: `create_criteo_nvt_workflow` always builds exactly the column
groups `C1..C26 >> Categorify(max_size = 10000000)`, then
`I1..I13 >> FillMissing >> Clip(min 0) >> Normalize`, plus the
untransformed `label` column; under a valid data path the analyse
task creates this workflow fresh and persists its fitted version to
`--output_path`, and the transform task reloads a workflow from
`--workflow_path`. -/
theorem criteo_workflow_pipeline (env : Env) (args : ParsedArgs)
    (dp wp : String) (hdp : args.parquet_data_path = some dp)
    (hglob : env.fs.glob (dp ++ "/*.parquet") ≠ [])
    (hwp : args.workflow_path = some wp) :
    create_criteo_nvt_workflow =
      { groups :=
          [{ columns :=
               ["C1", "C2", "C3", "C4", "C5", "C6", "C7", "C8", "C9",
                "C10", "C11", "C12", "C13", "C14", "C15", "C16", "C17",
                "C18", "C19", "C20", "C21", "C22", "C23", "C24", "C25",
                "C26"],
             ops := [Op.Categorify 10000000] },
           { columns :=
               ["I1", "I2", "I3", "I4", "I5", "I6", "I7", "I8", "I9",
                "I10", "I11", "I12", "I13"],
             ops := [Op.FillMissing, Op.Clip 0, Op.Normalize] },
           { columns := ["label"], ops := [] }],
        fitted := false } ∧
    (∃ c d, main_analyse env args =
      ([Action.createCluster c, Action.readParquetDataset d,
        Action.createWorkflow create_criteo_nvt_workflow,
        Action.saveWorkflowAct
          { output_path := args.output_path,
            workflow := Workflow.fit create_criteo_nvt_workflow d }],
       none)) ∧
    (∃ c d, main_transform env args =
      ([Action.createCluster c, Action.readParquetDataset d,
        Action.loadWorkflowAct wp (load_workflow env.workflowStore wp),
        Action.saveDatasetAct
          (save_dataset
            (transform_dataset d (load_workflow env.workflowStore wp))
            args.output_path none)],
       none)) := by
  cases hl : env.fs.glob (dp ++ "/*.parquet") with
  | nil => exact absurd hl hglob
  | cons a as =>
      have hds : create_parquet_dataset env.fs dp args.frac_size =
          Except.ok { files := (a :: as).map (fun i => "gs://" ++ i),
                      engine := "parquet", applied := [] } := by
        unfold create_parquet_dataset
        rw [hl]
        rfl
      refine ⟨rfl,
        ⟨create_cluster args.n_workers args.device_limit_frac
            args.device_pool_frac args.memory_limit env.deviceSize,
         { files := (a :: as).map (fun i => "gs://" ++ i),
           engine := "parquet", applied := [] }, ?_⟩,
        ⟨create_cluster args.n_workers args.device_limit_frac
            args.device_pool_frac args.memory_limit env.deviceSize,
         { files := (a :: as).map (fun i => "gs://" ++ i),
           engine := "parquet", applied := [] }, ?_⟩⟩
      · simp only [main_analyse, hdp, hds]
        rfl
      · simp only [main_transform, hdp, hds, hwp]

/-- Witness for C8: in an environment with one Parquet file both the
analyse and the transform task run to completion without error. -/
theorem criteo_workflow_pipeline_witness :
    (main_analyse envOneParquet argsTransform).2 = none ∧
    (main_transform envOneParquet argsTransform).2 = none := by
  have h := criteo_workflow_pipeline envOneParquet argsTransform
    "gs://criteo" "gs://wf" rfl
    (by simp [envOneParquet, fsOneParquet]) rfl
  obtain ⟨-, ⟨c1, d1, ha⟩, ⟨c2, d2, ht⟩⟩ := h
  exact ⟨by rw [ha], by rw [ht]⟩

/-- C1 (failing execution): `transform_dataset` returns its input
dataset unchanged for every input — the value `workflow.transform`
returns is discarded — so under the transform task the dataset handed
to `save_dataset` is the raw dataset read from `--parquet_data_path`
(`applied = []`, fourth and third conjuncts), not the dataset the
loaded workflow's transformation produces, whose `applied` list
records the workflow (second conjunct). -/
theorem transform_result_discarded :
    (∀ (d : Dataset) (w : Workflow), transform_dataset d w = d) ∧
    (Workflow.transform wfStored dsRaw).applied = [wfStored] ∧
    dsRaw.applied = [] ∧
    main_transform envOneParquet argsTransform =
      ([Action.createCluster
          (create_cluster (some 2) (3/5) (9/10) 100000000000 1000),
        Action.readParquetDataset dsRaw,
        Action.loadWorkflowAct "gs://wf" wfStored,
        Action.saveDatasetAct
          { output_path := some "gs://out", dataset := dsRaw,
            shuffle := none }], none) :=
  ⟨fun _ _ => rfl, rfl, rfl, rfl⟩

end CriteoPreproc
